import Mathlib

/-
Shallow embedding of the cart page script (src/.snapshots/script.js).
The file holds two snapshot versions of the script; they differ only in
the identifier lookup inside updateItemQuantity (the first compares the
row identifier string directly, the second coerces it to a number first).
All other definitions follow the second, complete version.
-/

namespace CartPage

/-- JsId models the JavaScript value stored in the id field of a line
item: the remote JSON delivers numbers, while the DOM dataset carries
strings. -/
inductive JsId where
  | num (n : Int)
  | str (s : String)
deriving DecidableEq, Repr

/-- Models JavaScript strict equality between an item id and a number:
values of different primitive types are never strictly equal. -/
def idEqNum : JsId → Int → Bool
  | .num m, n => m == n
  | .str _, _ => false

/-- Models JavaScript strict equality between an item id and a string. -/
def idEqStr : JsId → String → Bool
  | .str t, s => t == s
  | .num _, _ => false

/-- Longest prefix of decimal digits, as consumed by parseInt. -/
def leadingDigits : List Char → List Char
  | [] => []
  | c :: cs => if c.isDigit then c :: leadingDigits cs else []

/-- Decimal value of a digit sequence. -/
def digitsVal (cs : List Char) : Nat :=
  cs.foldl (fun a c => a * 10 + (c.toNat - 48)) 0

/-- Models parseInt in base 10 on the strings this program produces: an
optional minus sign followed by the longest digit prefix; none models
the NaN result, and NaN is strictly equal to nothing. Leading
whitespace and an explicit plus sign, which parseInt would also accept,
never occur in data-id attributes or number inputs and are not
modeled. -/
def jsParseInt (s : String) : Option Int :=
  match s.data with
  | '-' :: rest =>
      match leadingDigits rest with
      | [] => none
      | ds => some (-(digitsVal ds : Int))
  | cs =>
      match leadingDigits cs with
      | [] => none
      | ds => some ((digitsVal ds : Int))

/-- One product entry of the cart, as delivered by the remote JSON and
held in the items array of the CartManager. -/
structure LineItem where
  id : JsId
  title : String
  price : Int
  image : String
  quantity : Int
deriving DecidableEq, Repr

/-- The lookup predicate of the second updateItemQuantity version and of
confirmRemoveItem: item.id === parseInt(itemId). -/
def matchesId (it : LineItem) (itemId : String) : Bool :=
  match jsParseInt itemId with
  | some n => idEqNum it.id n
  | none => false

/-- CartManager.calculateTotals: subtotal by reduce over price times
quantity, item count by reduce over quantity (lines 262 to 273). -/
def calculateTotals (items : List LineItem) : Int × Int :=
  (items.foldl (fun total item => total + item.price * item.quantity) 0,
   items.foldl (fun count item => count + item.quantity) 0)

/-- JavaScript mutates the first array element found; this updates the
quantity of the first list element satisfying the predicate. -/
def setQuantityFirst : List LineItem → (LineItem → Bool) → Int → List LineItem
  | [], _, _ => []
  | it :: rest, p, q =>
      if p it then { it with quantity := q } :: rest
      else it :: setQuantityFirst rest p q

/-- The lookup of the first script version (line 122): this.items.find
with item.id === itemId, the row identifier kept as a string. -/
def findItemV1 (items : List LineItem) (itemId : String) : Option LineItem :=
  items.find? (fun it => idEqStr it.id itemId)

/-- The lookup of the second script version (line 244): this.items.find
with item.id === parseInt(itemId). -/
def findItemV2 (items : List LineItem) (itemId : String) : Option LineItem :=
  items.find? (fun it => matchesId it itemId)

/-- updateItemQuantity of the first version: locate by the string
compare; when found, set the quantity to the parsed input value. -/
def updateItemQuantityV1 (items : List LineItem) (itemId : String)
    (newQuantity : Int) : List LineItem :=
  setQuantityFirst items (fun it => idEqStr it.id itemId) newQuantity

/-- updateItemQuantity of the second version (lines 239 to 260): locate
by item.id === parseInt(itemId); when found, set the quantity to the
parsed input value, recompute totals and persist. The list mutation part
is modeled here; persistence is handled in ControllerState below. -/
def updateItemQuantityV2 (items : List LineItem) (itemId : String)
    (newQuantity : Int) : List LineItem :=
  setQuantityFirst items (fun it => matchesId it itemId) newQuantity

/-- The item removal inside confirmRemoveItem (line 300): this.items =
this.items.filter(item => item.id !== parseInt(itemId)). -/
def removeItem (items : List LineItem) (itemId : String) : List LineItem :=
  items.filter (fun it => !(matchesId it itemId))

/-- Json models the JavaScript values produced by JSON.parse and the
object literals the script builds for persistence. -/
inductive Json where
  | null
  | bool (b : Bool)
  | num (n : Int)
  | str (s : String)
  | arr (elems : List Json)
  | obj (fields : List (String × Json))
deriving Repr

/-- JavaScript truthiness of a parsed JSON value, as tested by the two
checks storedCart || null and if (storedCart). -/
def truthy : Json → Bool
  | .null => false
  | .bool b => b
  | .num n => n != 0
  | .str s => s != ""
  | .arr _ => true
  | .obj _ => true

/-- Property access v.k on a truthy JavaScript value: the field value
when present, none for undefined. -/
def getField (v : Json) (k : String) : Option Json :=
  match v with
  | .obj fields => (fields.find? (fun p => p.1 == k)).map (fun p => p.2)
  | _ => none

/-- The state of the localStorage cell under the fixed key cart,
described by what JSON.parse does to the stored text: absent (getItem
returns null), text parsing to a value, or text on which JSON.parse
throws a SyntaxError. -/
inductive Stored where
  | absent
  | validJson (v : Json)
  | invalidText

/-- saveCartToLocalStorage (lines 135 to 137): JSON.stringify the cart
object and overwrite the stored text. Stringify of a plain JSON-derived
value always yields text that parses back to the same value, so the new
cell is validJson of the saved value. -/
def saveCartToLocalStorage (cart : Json) (_prev : Stored) : Stored :=
  .validJson cart

/-- getCartFromLocalStorage (lines 139 to 141): JSON.parse of the stored
text, coerced by || null. When nothing is stored, JSON.parse(null)
parses the text null to the null value, giving null. A falsy parse
result is coerced to null; invalid text makes JSON.parse throw, and the
exception escapes this function. -/
def getCartFromLocalStorage : Stored → Except Unit (Option Json)
  | .absent => .ok none
  | .validJson v => .ok (if truthy v then some v else none)
  | .invalidText => .error ()

/-- Encoding of an item id into the JSON value it came from. -/
def idToJson : JsId → Json
  | .num n => .num n
  | .str s => .str s

/-- Encoding of a line item as the JSON object shape used by the remote
resource and the persisted snapshot. -/
def itemToJson (it : LineItem) : Json :=
  .obj [("id", idToJson it.id), ("title", .str it.title),
        ("price", .num it.price), ("image", .str it.image),
        ("quantity", .num it.quantity)]

/-- Encoding of a cart snapshot as the persisted object shape, with a
top level items array. -/
def cartToJson (items : List LineItem) : Json :=
  .obj [("items", .arr (items.map itemToJson))]

/-- Decoding of an id value. -/
def idFromJson : Json → Option JsId
  | .num n => some (.num n)
  | .str s => some (.str s)
  | _ => none

/-- Decoding of one item object back into a LineItem. -/
def itemFromJson (j : Json) : Option LineItem :=
  match (getField j "id").bind idFromJson with
  | none => none
  | some id =>
    match getField j "title" with
    | some (.str title) =>
      match getField j "price" with
      | some (.num price) =>
        match getField j "image" with
        | some (.str image) =>
          match getField j "quantity" with
          | some (.num quantity) =>
              some { id := id, title := title, price := price,
                     image := image, quantity := quantity }
          | _ => none
        | _ => none
      | _ => none
    | _ => none

/-- Decoding of a list of item objects; fails when any element fails. -/
def decodeItems : List Json → Option (List LineItem)
  | [] => some []
  | j :: rest =>
      match itemFromJson j, decodeItems rest with
      | some it, some its => some (it :: its)
      | _, _ => none

/-- Reading the items array out of a fetched or loaded cart value, as
this.items = cartData.items followed by rendering does. When the items
field is missing or not an array of well formed items, rendering the
list throws inside the try block; decoding failure stands for that
outcome. -/
def readItems (v : Json) : Option (List LineItem) :=
  match getField v "items" with
  | some (.arr elems) => decodeItems elems
  | _ => none

/-- The observable outcome of fetchCartItems: the resulting in memory
item list, the error paragraph written into the items container when an
exception was caught, the localStorage cell afterwards, and whether the
network request was issued. -/
structure LoadResult where
  items : List LineItem
  errorMsg : Option String
  store : Stored
  networkAccessed : Bool

/-- The error paragraph written into the items container by the catch
block of fetchCartItems (line 179). -/
def loadErrorHtml : String :=
  "<p>Error loading cart. Please try again later.</p>"

/-- CartManager.fetchCartItems (lines 163 to 181). The whole body runs
in a try block. A stored truthy snapshot is used directly and the
function returns before any fetch. Otherwise the remote resource is
fetched; fetch plus response.json() is modeled as one Except value.
After a successful fetch the items are rendered before
saveCartToLocalStorage(cartData) runs, so a render throw skips the
write. Any exception lands in the catch block, which writes the error
paragraph; this.items keeps whatever was assigned before the throw, and
the model reports the initial empty list in those branches (no claim
depends on the garbage value the field holds after a render throw). -/
def fetchCartItems (store : Stored) (network : Except Unit Json) : LoadResult :=
  match getCartFromLocalStorage store with
  | .error _ => { items := [], errorMsg := some loadErrorHtml,
                  store := store, networkAccessed := false }
  | .ok (some storedCart) =>
      match readItems storedCart with
      | some items => { items := items, errorMsg := none,
                        store := store, networkAccessed := false }
      | none => { items := [], errorMsg := some loadErrorHtml,
                  store := store, networkAccessed := false }
  | .ok none =>
      match network with
      | .error _ => { items := [], errorMsg := some loadErrorHtml,
                      store := store, networkAccessed := true }
      | .ok cartData =>
          match readItems cartData with
          | some items => { items := items, errorMsg := none,
                            store := saveCartToLocalStorage cartData store,
                            networkAccessed := true }
          | none => { items := [], errorMsg := some loadErrorHtml,
                      store := store, networkAccessed := true }

/-- A click on one of the two stepper buttons of a cart row. -/
inductive StepperOp where
  | inc
  | dec
deriving DecidableEq, Repr

/-- One stepper click on the row with dataset id itemId, whose number
input currently shows v (lines 220 to 236). The increase handler writes
v + 1 into the input and calls updateItemQuantity; the decrease handler
first tests input.value > 1 (string to number coercion) and does
nothing at all when the test fails. -/
def stepperStep (items : List LineItem) (itemId : String) (v : Int) :
    StepperOp → List LineItem × Int
  | .inc => (updateItemQuantityV2 items itemId (v + 1), v + 1)
  | .dec =>
      if 1 < v then (updateItemQuantityV2 items itemId (v - 1), v - 1)
      else (items, v)

/-- A sequence of stepper clicks on one row, each processed to
completion before the next, as the single threaded event loop runs
them. -/
def stepperRun (items : List LineItem) (itemId : String) (v : Int) :
    List StepperOp → List LineItem × Int
  | [] => (items, v)
  | op :: ops =>
      let s := stepperStep items itemId v op
      stepperRun s.1 itemId s.2 ops

/-- The mutable fields of the CartManager that the removal flow touches:
the items array, the subtotal, the itemToRemove reference (modeled by
the data-id string of the referenced row), the modal visibility and the
localStorage cell. Idle is itemToRemove = none with the modal hidden;
ConfirmingRemoval is itemToRemove = some rowId with the modal shown. -/
structure ControllerState where
  items : List LineItem
  subtotal : Int
  itemToRemove : Option String
  modalVisible : Bool
  store : Stored

/-- The remove icon click handler (lines 277 to 283): record the row as
itemToRemove and show the modal. -/
def removeClicked (s : ControllerState) (rowId : String) : ControllerState :=
  { s with itemToRemove := some rowId, modalVisible := true }

/-- CartManager.closeRemoveModal (lines 290 to 293): hide the modal and
clear itemToRemove. -/
def closeRemoveModal (s : ControllerState) : ControllerState :=
  { s with modalVisible := false, itemToRemove := none }

/-- CartManager.confirmRemoveItem (lines 295 to 314): when a row is
pending, filter its item out of the items array, recompute the totals,
persist \x7b items: this.items \x7d, and close the modal; when nothing is
pending, the guard makes the whole handler a no-op. -/
def confirmRemoveItem (s : ControllerState) : ControllerState :=
  match s.itemToRemove with
  | none => s
  | some rowId =>
      let newItems := removeItem s.items rowId
      { s with items := newItems,
               subtotal := (calculateTotals newItems).1,
               store := saveCartToLocalStorage (cartToJson newItems) s.store,
               itemToRemove := none,
               modalVisible := false }

/-- A concrete well formed line item used by witnesses and
counterexamples. -/
def demoItem : LineItem :=
  { id := .num 1, title := "Sneakers", price := 99900,
    image := "shoe.png", quantity := 1 }

/-- A one item cart used by witnesses and counterexamples. -/
def demoItems : List LineItem := [demoItem]

/-- A controller state in ConfirmingRemoval for the demo row. -/
def confirmingState : ControllerState :=
  { items := demoItems, subtotal := (calculateTotals demoItems).1,
    itemToRemove := some "1", modalVisible := true,
    store := .validJson (cartToJson demoItems) }

/-- A controller state in Idle with nothing pending. -/
def idleState : ControllerState :=
  { items := demoItems, subtotal := (calculateTotals demoItems).1,
    itemToRemove := none, modalVisible := false,
    store := .validJson (cartToJson demoItems) }

/-- Folding addition of a mapped value distributes to a list sum. -/
theorem foldl_add_map_sum (f : LineItem → Int) (l : List LineItem) (init : Int) :
    l.foldl (fun a it => a + f it) init = init + (l.map f).sum := by
  induction l generalizing init with
  | nil => simp
  | cons x xs ih =>
      simp only [List.foldl_cons, List.map_cons, List.sum_cons, ih]
      ring

/-- Claim C1: for every CartSnapshot, computeAggregates (calculateTotals)
returns a subtotal equal to the sum over all line items of unit price
times quantity, and an item count equal to the sum of all quantities. -/
theorem calculateTotals_correct (items : List LineItem) :
    (calculateTotals items).1 = (items.map (fun it => it.price * it.quantity)).sum
    ∧ (calculateTotals items).2 = (items.map (fun it => it.quantity)).sum := by
  constructor
  · simpa using foldl_add_map_sum (fun it => it.price * it.quantity) items 0
  · simpa using foldl_add_map_sum (fun it => it.quantity) items 0

/-- Decoding inverts encoding on a single line item. -/
theorem itemFromJson_itemToJson (it : LineItem) :
    itemFromJson (itemToJson it) = some it := by
  cases it with
  | mk id title price image quantity => cases id <;> rfl

/-- Decoding inverts encoding on a list of line items. -/
theorem decodeItems_map_itemToJson (items : List LineItem) :
    decodeItems (items.map itemToJson) = some items := by
  induction items with
  | nil => rfl
  | cons it rest ih =>
      simp only [List.map_cons, decodeItems, itemFromJson_itemToJson, ih]

/-- Reading the items array out of an encoded snapshot recovers the
original item list. -/
theorem readItems_cartToJson (items : List LineItem) :
    readItems (cartToJson items) = some items := by
  have h : getField (cartToJson items) "items"
      = some (.arr (items.map itemToJson)) := rfl
  simp only [readItems, h, decodeItems_map_itemToJson]

/-- Claim C2: when the store already holds a persisted cart snapshot,
fetchCartItems returns that snapshot as is, renders no error, leaves the
store untouched and never issues the network request, whatever the
network would have answered. -/
theorem fetchCartItems_cache_first (items : List LineItem)
    (nw : Except Unit Json) :
    fetchCartItems (Stored.validJson (cartToJson items)) nw =
      { items := items, errorMsg := none,
        store := Stored.validJson (cartToJson items),
        networkAccessed := false } := by
  have h : getCartFromLocalStorage (Stored.validJson (cartToJson items))
      = .ok (some (cartToJson items)) := rfl
  simp only [fetchCartItems, h, readItems_cartToJson]

/-- Claim C3: saving a cart snapshot through the persistence adapter and
immediately loading yields the saved value back, and decoding it gives
the identical sequence of line items, whatever was stored before. -/
theorem save_then_load_roundtrip (items : List LineItem) (prev : Stored) :
    getCartFromLocalStorage (saveCartToLocalStorage (cartToJson items) prev)
      = .ok (some (cartToJson items))
    ∧ readItems (cartToJson items) = some items :=
  ⟨rfl, readItems_cartToJson items⟩

/-- Claim C4 counterexample: with stored text that fails to parse, the
load flow does not behave as on a cache miss. With the same successful
network value, the invalid text run renders the error paragraph, keeps
the model empty and never issues the fetch, while the nothing stored run
fetches, renders no error and fills the model. -/
theorem load_parse_failure_not_cache_miss :
    (fetchCartItems Stored.invalidText (.ok (cartToJson demoItems))).networkAccessed = false
    ∧ (fetchCartItems Stored.invalidText (.ok (cartToJson demoItems))).errorMsg = some loadErrorHtml
    ∧ (fetchCartItems Stored.invalidText (.ok (cartToJson demoItems))).items = []
    ∧ (fetchCartItems Stored.absent (.ok (cartToJson demoItems))).networkAccessed = true
    ∧ (fetchCartItems Stored.absent (.ok (cartToJson demoItems))).errorMsg = none
    ∧ (fetchCartItems Stored.absent (.ok (cartToJson demoItems))).items = demoItems :=
  ⟨rfl, rfl, rfl, rfl, rfl, rfl⟩

/-- Claim C4 amended: stored text on which JSON.parse throws makes the
exception land in the catch block of fetchCartItems: the error paragraph
is rendered, the model stays empty, the store is unchanged and no
network request is issued; the flow does not fall through to the remote
fetch. -/
theorem load_parse_failure_shows_error (nw : Except Unit Json) :
    fetchCartItems Stored.invalidText nw =
      { items := [], errorMsg := some loadErrorHtml,
        store := Stored.invalidText, networkAccessed := false } := rfl

/-- Claim C7: on a cache miss, a network request that throws during
fetch or response parsing is caught: the error paragraph replaces the
item container content, the cart model remains empty, and the store is
not written. -/
theorem fetch_error_renders_message (store : Stored)
    (h : getCartFromLocalStorage store = .ok none) :
    fetchCartItems store (.error ()) =
      { items := [], errorMsg := some loadErrorHtml,
        store := store, networkAccessed := true } := by
  simp only [fetchCartItems, h]

/-- Witness for claim C7 at the empty store. -/
theorem fetch_error_renders_message_witness :
    fetchCartItems Stored.absent (.error ()) =
      { items := [], errorMsg := some loadErrorHtml,
        store := Stored.absent, networkAccessed := true } :=
  fetch_error_renders_message Stored.absent rfl

/-- Setting the first matching quantity to a value of at least one keeps
every quantity in the list at least one. -/
theorem setQuantityFirst_floor (items : List LineItem) (p : LineItem → Bool)
    (q : Int) (hq : 1 ≤ q) (h : ∀ it ∈ items, 1 ≤ it.quantity) :
    ∀ it ∈ setQuantityFirst items p q, 1 ≤ it.quantity := by
  induction items with
  | nil => intro it hit; simp [setQuantityFirst] at hit
  | cons x xs ih =>
      intro it hit
      by_cases hp : p x = true
      · simp [setQuantityFirst, hp] at hit
        rcases hit with rfl | hmem
        · exact hq
        · exact h it (List.mem_cons_of_mem _ hmem)
      · simp [setQuantityFirst, hp] at hit
        rcases hit with rfl | hmem
        · exact h it (List.mem_cons_self _ _)
        · exact ih (fun a ha => h a (List.mem_cons_of_mem _ ha)) it hmem

/-- Claim C5 counterexample: a direct numeric edit of the quantity input
to 0 fires the change handler, which stores the parsed value verbatim:
the demo item ends with quantity 0, so the edit is not a no-op and the
quantity does drop below 1. -/
theorem direct_edit_breaks_quantity_floor :
    (updateItemQuantityV2 demoItems "1" 0).map (fun it => it.quantity) = [0]
    ∧ updateItemQuantityV2 demoItems "1" 0 ≠ demoItems := by
  refine ⟨rfl, ?_⟩
  decide

/-- Claim C5 amended: through the stepper buttons alone the floor does
hold. Starting from a displayed value of at least 1 and item quantities
all at least 1, any sequence of increase and decrease clicks keeps the
displayed value and every item quantity at least 1; the decrease handler
refuses to go below 1. A direct numeric edit, by contrast, writes the
entered value verbatim. -/
theorem stepper_ops_preserve_quantity_floor (items : List LineItem)
    (itemId : String) (v : Int) (ops : List StepperOp)
    (hv : 1 ≤ v) (h : ∀ it ∈ items, 1 ≤ it.quantity) :
    1 ≤ (stepperRun items itemId v ops).2
    ∧ ∀ it ∈ (stepperRun items itemId v ops).1, 1 ≤ it.quantity := by
  induction ops generalizing items v with
  | nil => exact ⟨hv, h⟩
  | cons op ops ih =>
      cases op with
      | inc =>
          simp only [stepperRun, stepperStep]
          exact ih _ _ (by omega)
            (setQuantityFirst_floor items _ (v + 1) (by omega) h)
      | dec =>
          simp only [stepperRun, stepperStep]
          by_cases hlt : 1 < v
          · simp only [if_pos hlt]
            exact ih _ _ (by omega)
              (setQuantityFirst_floor items _ (v - 1) (by omega) h)
          · simp only [if_neg hlt]
            exact ih _ _ hv h

/-- Witness for the amended claim C5: two decrease clicks starting from
quantity 1 leave the displayed value at least 1. -/
theorem stepper_ops_preserve_quantity_floor_witness :
    1 ≤ (stepperRun demoItems "1" 1 [StepperOp.dec, StepperOp.dec]).2 :=
  (stepper_ops_preserve_quantity_floor demoItems "1" 1
    [StepperOp.dec, StepperOp.dec] (by decide) (by decide)).1

/-- Claim C6: removeItem keeps exactly the items that do not match the
identifier, preserving their order, and when no item matches the
identifier the list is returned unchanged. -/
theorem removeItem_correct (items : List LineItem) (itemId : String) :
    (∀ it, it ∈ removeItem items itemId
        ↔ it ∈ items ∧ matchesId it itemId = false)
    ∧ (removeItem items itemId).Sublist items
    ∧ ((∀ it ∈ items, matchesId it itemId = false)
        → removeItem items itemId = items) := by
  refine ⟨?_, ?_, ?_⟩
  · intro it
    simp [removeItem, List.mem_filter]
  · exact List.filter_sublist items
  · intro h
    apply List.filter_eq_self.mpr
    intro a ha
    simp [h a ha]

/-- Witness for claim C6: removing the absent identifier 2 from the demo
cart leaves it unchanged. -/
theorem removeItem_correct_witness :
    removeItem demoItems "2" = demoItems :=
  (removeItem_correct demoItems "2").2.2 (by decide)

/-- Claim C8: from ConfirmingRemoval, cancel hides the modal and clears
the pending row without touching the items, the subtotal or the store,
while confirm
removes the pending item, recomputes the subtotal, persists the new
snapshot, clears the pending row and hides the modal; both handlers end
in Idle. -/
theorem removal_confirmation_transitions (s : ControllerState)
    (rowId : String) (h : s.itemToRemove = some rowId) :
    (closeRemoveModal s).items = s.items
    ∧ (closeRemoveModal s).store = s.store
    ∧ (closeRemoveModal s).subtotal = s.subtotal
    ∧ (closeRemoveModal s).itemToRemove = none
    ∧ (closeRemoveModal s).modalVisible = false
    ∧ (confirmRemoveItem s).items = removeItem s.items rowId
    ∧ (confirmRemoveItem s).subtotal
        = (calculateTotals (removeItem s.items rowId)).1
    ∧ (confirmRemoveItem s).store
        = saveCartToLocalStorage (cartToJson (removeItem s.items rowId)) s.store
    ∧ (confirmRemoveItem s).itemToRemove = none
    ∧ (confirmRemoveItem s).modalVisible = false := by
  refine ⟨rfl, rfl, rfl, rfl, rfl, ?_, ?_, ?_, ?_, ?_⟩ <;>
    simp [confirmRemoveItem, h]

/-- Witness for claim C8 at the demo confirming state. -/
theorem removal_confirmation_transitions_witness :
    (closeRemoveModal confirmingState).items = confirmingState.items :=
  (removal_confirmation_transitions confirmingState "1" rfl).1

/-- Claim C9: the two snapshot versions of the quantity update lookup
disagree on a cart with a numeric identifier. The first version compares
the number 1 to the row string with strict equality and finds nothing,
so its update is a no-op; the second coerces the row string through
parseInt, finds the item and changes its quantity, so the two versions
are not equivalent. -/
theorem updateItemQuantity_versions_inequivalent :
    findItemV1 demoItems "1" = none
    ∧ findItemV2 demoItems "1" = some demoItem
    ∧ updateItemQuantityV1 demoItems "1" 5 = demoItems
    ∧ updateItemQuantityV2 demoItems "1" 5 ≠ demoItems := by
  refine ⟨rfl, rfl, rfl, ?_⟩
  decide

/-- Claim C10: when no removal is pending, confirmRemoveItem leaves the
whole controller state unchanged: items, subtotal, store, pending row
and modal visibility. -/
theorem confirmRemoveItem_idle_noop (s : ControllerState)
    (h : s.itemToRemove = none) :
    confirmRemoveItem s = s := by
  simp only [confirmRemoveItem, h]

/-- Witness for claim C10 at the demo idle state. -/
theorem confirmRemoveItem_idle_noop_witness :
    confirmRemoveItem idleState = idleState :=
  confirmRemoveItem_idle_noop idleState rfl

end CartPage
